import Mathlib

/-!
Verification of the pilot job-control component (`pilot/control/job.py`).

The Python source is shallowly embedded: each relevant Python function is
translated into an executable Lean function over explicit records, with the
in-place mutations of the Python code expressed as functional record updates.
Collaborator helpers that live outside the embedded file (e.g.
`pilot.util.auxiliary.set_pilot_state`, `pilot.common.errorcodes`) are
modelled from the specification text and flagged as such in their doc
comments.
-/

namespace PilotJob

/-! ## Python string primitives

Python's `in`, `str.replace` and `str.split` are modelled on `List Char`,
structurally recursive so that all definitions evaluate inside the kernel. -/

/-- Python `sub in s` (substring containment) on character lists. -/
def containsSubList (sub : List Char) : List Char → Bool
  | [] => sub.isEmpty
  | c :: t => sub.isPrefixOf (c :: t) || containsSubList sub t

/-- Fuel-driven core of Python `str.replace` (replaces every non-overlapping
occurrence, scanning left to right). The fuel is the length of the scanned
list, which suffices because every step consumes at least one character. -/
def replaceSubAux (sub repl : List Char) : Nat → List Char → List Char
  | 0, s => s
  | _ + 1, [] => []
  | fuel + 1, c :: t =>
    if !sub.isEmpty && sub.isPrefixOf (c :: t) then
      repl ++ replaceSubAux sub repl fuel ((c :: t).drop sub.length)
    else
      c :: replaceSubAux sub repl fuel t

/-- Python `sub in s` for strings. -/
def pyContains (s sub : String) : Bool := containsSubList sub.data s.data

/-- Python `s.replace(sub, repl)` for strings. -/
def pyReplace (s sub repl : String) : String :=
  ⟨replaceSubAux sub.data repl.data s.data.length s.data⟩

/-- Python `s.split(' ')[0]`: the first space-separated token
(`''.split(' ')[0]` is `''`, so the total function below agrees with the
Python expression on every input). -/
def firstToken (s : String) : String := ⟨s.data.takeWhile (fun c => c ≠ ' ')⟩

/-! ## Data model

The slice of the `JobData` object that the embedded functions touch
(`pilot/control/job.py` reads and writes exactly these fields). `pid = 0`
models Python's falsy `job.pid` (`None`/`0`). -/

structure Job where
  state : String
  serverstate : String
  piloterrorcode : Int
  piloterrorcodes : List Int
  piloterrordiags : List String
  /-- result of `job.is_analysis()` -/
  is_analysis : Bool
  completed : Bool
  debug : Bool
  debug_command : String
  pid : Nat
  indata : List String
  deriving Repr, DecidableEq

/-- The slice of the pilot `args` object used by the embedded functions. -/
structure Args where
  update_server : Bool
  pod : Bool
  workflow : String
  cleanup : Bool
  /-- `args.abort_job.is_set()` -/
  abort_job : Bool
  deriving Repr, DecidableEq

/-- Modelled from the spec: error-code constant `errors.PANDAKILL`
(`pilot.common.errorcodes`, not under `src/`). Only its identity matters to
the control code, not its numeric value. -/
def PANDAKILL : Int := 1666

/-- Modelled from the spec: error-code constant `errors.REACHEDMAXTIME`
(`pilot.common.errorcodes`, not under `src/`). -/
def REACHEDMAXTIME : Int := 1613

/-- Modelled from the spec: `errors.add_error_code(code, msg=..)`
(`pilot.common.errorcodes`, not under `src/`). The spec describes "an
ordered list of (error-code, diagnostic) pairs"; the helper appends the
code and its diagnostic to the two parallel lists. -/
def add_error_code (code : Int) (msg : String) (codes : List Int)
    (diags : List String) : List Int × List String :=
  (codes ++ [code], diags ++ [msg])

/-- Modelled from the spec: `set_pilot_state(job=.., state=..)`
(`pilot.util.auxiliary`, not under `src/`) records the internal pilot state
on the job object. -/
def set_pilot_state (job : Job) (state : String) : Job :=
  { job with state := state }

/-! ## `verify_error_code` (`pilot/control/job.py:143`) -/

/-- Embedding of `verify_error_code(job)`. The recoverability classifier
`errors.is_recoverable` lives outside `src/` and is taken as a parameter. -/
def verify_error_code (is_recoverable : Int → Bool) (job : Job) : Job :=
  let job :=
    if job.piloterrorcode = 0 ∧ job.piloterrorcodes.length > 0 then
      { job with piloterrorcode := job.piloterrorcodes.headD 0 }
    else job
  if job.piloterrorcode ≠ 0 ∧ job.is_analysis then
    if is_recoverable job.piloterrorcode then
      { job with piloterrorcode := -(job.piloterrorcode.natAbs : Int),
                 state := "failed" }
    else job
  else job

/-! ## `get_proper_state` (`pilot/control/job.py:170`) -/

/-- Embedding of `get_proper_state(job, state)`: returns the job (whose
`serverstate` field the Python function mutates) together with the returned
server-visible state. -/
def get_proper_state (job : Job) (state : String) : Job × String :=
  if job.serverstate = "finished" ∨ job.serverstate = "failed" then
    (job, job.serverstate)
  else if job.serverstate = "" ∧ state ≠ "finished" ∧ state ≠ "failed" then
    ({ job with serverstate := "starting" }, "starting")
  else if state = "finished" ∨ state = "failed" ∨ state = "holding" then
    ({ job with serverstate := state }, state)
  else
    ({ job with serverstate := "running" }, "running")

/-! ## `get_debug_command` (`pilot/control/job.py:450`) -/

def allowed_commands : List String := ["tail", "ls", "ps", "gdb", "du"]

def forbidden_commands : List String := ["rm"]

/-- The redundant-`debug` stripping step of `get_debug_command`
(lines 466–468): when the raw command contains both a comma and `debug`,
every occurrence of `debug,` and then of `,debug` is removed. -/
def strip_redundant_debug (cmd : String) : String :=
  if pyContains cmd "," && pyContains cmd "debug" then
    pyReplace (pyReplace cmd "debug," "") ",debug" ""
  else cmd

/-- Embedding of `get_debug_command(cmd)`: returns
`(debug_mode, debug_command)`. -/
def get_debug_command (cmd : String) : Bool × String :=
  let cmd := strip_redundant_debug cmd
  let com := firstToken cmd
  if !(allowed_commands.contains com) then (false, "")
  else if pyContains cmd ";" || pyContains cmd "&#59" then (false, "")
  else if forbidden_commands.contains com then (false, "")
  else (true, cmd)

/-! ## `handle_backchannel_command` (`pilot/control/job.py:487`) -/

/-- Outcome of `handle_backchannel_command`: the (possibly mutated) job plus
the side effects the Python code performs (`kill_process(job.pid)`,
`args.abort_job.set()`, `args.cleanup = False`). -/
structure BCResult where
  job : Job
  killed_payload : Bool
  abort_job_set : Bool
  cleanup_disabled : Bool
  deriving Repr, DecidableEq

/-- Embedding of `handle_backchannel_command(res, job, args)` restricted to the
`command` key of the response (`command = none` models a response without a
`command` key). `workdir_exists` models `os.path.exists(job.workdir)`. The
`test_tobekilled` parameter of the Python function is fixed to its default
`False`. -/
def handle_backchannel_command (workflow : String) (workdir_exists : Bool)
    (command : Option String) (job : Job) : BCResult :=
  match command with
  | none => ⟨job, false, false, false⟩
  | some cmd =>
    if cmd = "NULL" then ⟨job, false, false, false⟩
    else if pyContains cmd " " && !(pyContains cmd "tobekilled") then
      let (dm, dc) := get_debug_command cmd
      ⟨{ job with debug := dm, debug_command := dc }, false, false, false⟩
    else if pyContains cmd "tobekilled" then
      if !workdir_exists then ⟨job, false, false, false⟩
      else
        let job :=
          if workflow = "stager" then set_pilot_state job "finished"
          else
            let job := set_pilot_state job "failed"
            let (codes, diags) :=
              add_error_code PANDAKILL "" job.piloterrorcodes job.piloterrordiags
            { job with piloterrorcodes := codes, piloterrordiags := diags }
        ⟨job, job.pid ≠ 0, true, false⟩
    else if pyContains cmd "softkill" then
      ⟨{ job with debug_command := "softkill" }, false, false, false⟩
    else if pyContains cmd "debug" then
      ⟨{ job with debug := true, debug_command := "debug" }, false, false, false⟩
    else if pyContains cmd "debugoff" then
      ⟨{ job with debug := false, debug_command := "debugoff" }, false, false, false⟩
    else if pyContains cmd "nocleanup" then
      ⟨job, false, false, true⟩
    else ⟨job, false, false, false⟩

/-! ## `is_final_update` (`pilot/control/job.py:260`) and
`send_state` (`pilot/control/job.py:290`) -/

/-- Embedding of `is_final_update(job, state)`: returns the (possibly
mutated) job and the `final` flag. The local rebinding of `state` inside the
Python function does not escape it (strings are passed by value), so only
the job mutation and the returned flag are observable. -/
def is_final_update (is_recoverable : Int → Bool) (job : Job) (state : String) :
    Job × Bool :=
  if state = "finished" ∨ state = "failed" ∨ state = "holding" then
    if job.piloterrorcode ≠ 0 ∨ job.piloterrorcodes ≠ [] then
      ({ job with state := "failed" }, true)
    else if state ≠ "finished" then
      (verify_error_code is_recoverable job, true)
    else (job, true)
  else (job, false)

/-- Environment of one `send_state` call: everything the Python function
reads from outside the job/args objects. `response = none` models
`https.send_update` returning `None` (failed update); `some r` a successful
update whose body is `r`. -/
structure SendEnv where
  /-- `os.environ.get('REACHED_MAXTIME', None)` is truthy -/
  reached_maxtime : Bool
  /-- `config.Pilot.pandajob == 'real'` -/
  pandajob_real : Bool
  /-- `os.path.exists(job.workdir)` -/
  workdir_exists : Bool
  /-- `command` key of the `updateJob` response, when the update succeeded -/
  response : Option (Option String)
  /-- result of the heartbeat-file / Harvester-report write path taken when
  `args.update_server` is off -/
  write_ok : Bool
  deriving Repr, DecidableEq

/-- Embedding of `send_state(job, args, state)` (with the `xml`, `metadata`
and `test_tobekilled` parameters at their defaults). Returns the mutated
job, the mutated args and the boolean result of the Python function. The
payload dictionary built by `get_data_structure` has no effect on the job
object and is not modelled. -/
def send_state (is_recoverable : Int → Bool) (env : SendEnv) (args : Args)
    (job : Job) (state : String) : Job × Args × Bool :=
  let (job, state) :=
    if env.reached_maxtime then
      let (codes, diags) :=
        add_error_code REACHEDMAXTIME "the max batch system time limit has been reached"
          job.piloterrorcodes job.piloterrordiags
      ({ job with piloterrorcodes := codes, piloterrordiags := diags,
                  state := "failed" }, "failed")
    else (job, state)
  let (job, state) := get_proper_state job state
  let (job, state) :=
    if state = "finished" ∨ state = "holding" ∨ state = "failed" then (job, state)
    else if args.pod ∧ args.workflow = "stager" then
      ({ job with state := "running" }, "running")
    else (job, state)
  let (job, _final) := is_final_update is_recoverable job state
  if !args.update_server then (job, args, env.write_ok)
  else if !env.pandajob_real then (job, args, true)
  else
    match env.response with
    | some command =>
      let r := handle_backchannel_command args.workflow env.workdir_exists command job
      let args := { args with abort_job := args.abort_job || r.abort_job_set,
                              cleanup := args.cleanup && !r.cleanup_disabled }
      let job :=
        if state = "finished" ∨ state = "holding" ∨ state = "failed" then
          { r.job with completed := true }
        else r.job
      (job, args, true)
    | none => (job, args, false)

/-! ## `update_server` (`pilot/control/job.py:2467`) -/

/-- Outcome of `update_server`: the job and args after the call, and whether
`send_state` was invoked at all. -/
structure UpdateServerRes where
  job : Job
  args : Args
  send_state_called : Bool
  deriving Repr, DecidableEq

/-- Embedding of `update_server(job, args)`: an already-completed job short
circuits before any metadata preparation or `send_state` call. -/
def update_server (is_recoverable : Int → Bool) (env : SendEnv) (args : Args)
    (job : Job) : UpdateServerRes :=
  if job.completed then ⟨job, args, false⟩
  else
    let (job, args, _) := send_state is_recoverable env args job job.state
    ⟨job, args, true⟩

/-! ## `job_monitor` error handling (`pilot/control/job.py:2859`–`2880`) -/

/-- Embedding of the error-code block of `job_monitor` (lines 2872–2880):
executed when a kill signal / MAXTIME probe produced `error_code`. Returns
the job as left by the block together with whether `send_state` was invoked
(the Python code guards the call with `if not jobs[i].completed:`
immediately after assigning `jobs[i].completed = True`). -/
def job_monitor_error_step (is_recoverable : Int → Bool) (env : SendEnv)
    (args : Args) (error_code : Int) (job : Job) : Job × Bool :=
  let job := { job with state := "failed" }
  let (codes, diags) :=
    add_error_code error_code "" job.piloterrorcodes job.piloterrordiags
  let job := { job with piloterrorcodes := codes, piloterrordiags := diags }
  let job := { job with completed := true }
  if !job.completed then
    let (job, _, _) := send_state is_recoverable env args job job.state
    (job, true)
  else (job, false)

/-! ## `create_data_payload` routing (`pilot/control/job.py:1220`) -/

/-- Destinations of one `create_data_payload` iteration for a dequeued job. -/
structure RouteResult where
  job : Job
  to_data_in : Bool
  to_finished_data_in : Bool
  to_payloads : Bool
  /-- the `running` heartbeat sent in the pod/stager branch -/
  sent_running : Bool
  deriving Repr, DecidableEq

/-- Embedding of the per-job body of `create_data_payload(queues, traces,
args)` (the routing decisions for one job dequeued from `validated_jobs`). -/
def create_data_payload_route (args : Args) (job : Job) : RouteResult :=
  if job.indata ≠ [] then
    let job := set_pilot_state job "stagein"
    ⟨job, true, false, args.workflow ≠ "stager", false⟩
  else
    let (job, sent) :=
      if args.pod ∧ args.workflow = "stager" then
        (set_pilot_state job "running", true)
      else (job, false)
    ⟨job, false, true, args.workflow ≠ "stager", sent⟩

/-! ## `order_log_transfer` wait loop (`pilot/control/job.py:2286`) -/

/-- Modelled from the spec: the `LOG_TRANSFER_*` status constants
(`pilot.util.constants`, not under `src/`); only their distinctness is used
by the control code. -/
def LOG_TRANSFER_NOT_DONE : String := "NOT_DONE"

/-- Modelled from the spec: see `LOG_TRANSFER_NOT_DONE`. -/
def LOG_TRANSFER_IN_PROGRESS : String := "IN_PROGRESS"

/-- Modelled from the spec: see `LOG_TRANSFER_NOT_DONE`. -/
def LOG_TRANSFER_DONE : String := "DONE"

/-- Modelled from the spec: see `LOG_TRANSFER_NOT_DONE`. -/
def LOG_TRANSFER_FAILED : String := "FAILED"

/-- What one iteration of the `order_log_transfer` wait loop observes:
`is_queue_empty(queues, 'data_out')` and `job.get_status('LOG_TRANSFER')`
(both can be changed concurrently by the data component, hence a fresh
observation per iteration). -/
structure LogObs where
  data_out_empty : Bool
  log_transfer : String

/-- Embedding of the wait loop of `order_log_transfer` (lines 2303–2317):
`while n < nmax: … else: sleep(2); n += 1`, with the guard `n < nmax`
represented by the remaining iteration budget `fuel = nmax - n` (so the loop
is structurally recursive and evaluates in the kernel). `obs i` is the
observation made in the iteration with counter value `i`; the result is the
final value of `n`, i.e. the number of 2-second sleeps performed. -/
def order_log_transfer_loop (obs : Nat → LogObs) : Nat → Nat → Nat
  | n, 0 => n
  | n, fuel + 1 =>
    if (obs n).data_out_empty ∧
        ((obs n).log_transfer = LOG_TRANSFER_DONE ∨
          (obs n).log_transfer = LOG_TRANSFER_FAILED) then
      n
    else order_log_transfer_loop obs (n + 1) fuel

/-- The wait loop of `order_log_transfer` as run by the Python code:
`n = 0`, `nmax = 60`. -/
def order_log_transfer_sleeps (obs : Nat → LogObs) : Nat :=
  order_log_transfer_loop obs 0 60

/-! ## `wait_for_aborted_job_stageout` (`pilot/control/job.py:2322`) -/

/-- Embedding of the `time_since_kill` computation (lines 2333–2344):
`none` models the exception path of `get_time_since`, and an in-range value
passes through while a negative or too-large value is reset to 60. -/
def clamp_time_since_kill : Option Int → Int
  | none => 60
  | some v => if v > 60 ∨ v < 0 then 60 else v

/-- Embedding of `max_wait_time = 2 * 60 - time_since_kill - 5`
(line 2348). -/
def max_wait_time (t : Option Int) : Int := 2 * 60 - clamp_time_since_kill t - 5

/-- Embedding of the wait loop of `wait_for_aborted_job_stageout`
(lines 2350–2356), time discretized in the 0.5-second sleep steps of the
loop body: step `k` happens at elapsed time `k/2` s, so the loop guard
`time.time() - t0 < max_wait_time` becomes a remaining budget of
`2 * max_wait_time` steps (`fuel`), making the loop structurally recursive.
`found k` is whether the job is observed in `finished_data_out` or
`failed_data_out` at step `k`; the result is the step at which the loop
exits. -/
def aborted_stageout_loop (found : Nat → Bool) : Nat → Nat → Nat
  | k, 0 => k
  | k, fuel + 1 => if found k then k else aborted_stageout_loop found (k + 1) fuel

/-- The wait loop of `wait_for_aborted_job_stageout` started at elapsed time
zero with the full step budget. -/
def aborted_stageout_steps (found : Nat → Bool) (budget : Nat) : Nat :=
  aborted_stageout_loop found 0 budget

/-! ## `retrieve` backoff after a non-zero `StatusCode`
(`pilot/control/job.py:1979`–`2007`) -/

/-- Embedding of `for i in range(fuel): if graceful_stop.is_set(): break;
time.sleep(1)` — the interruptible wait used by `retrieve`. `stop i` is
whether `graceful_stop` is observed set at check `i`; the result is the
number of 1-second sleeps actually performed. -/
def interruptible_wait (stop : Nat → Bool) : Nat → Nat → Nat
  | _, 0 => 0
  | i, fuel + 1 => if stop i then 0 else 1 + interruptible_wait stop (i + 1) fuel

/-- Outcome of the non-zero-`StatusCode` branch of the `retrieve` loop. -/
structure BackoffOutcome where
  getjob_failures : Nat
  graceful_stop_set : Bool
  loop_break : Bool
  sleeps : Nat
  deriving Repr, DecidableEq

/-- Embedding of the branch of `retrieve` taken when the `getJob` response
carries a `StatusCode` different from `0` (lines 1996–2007): increment
`getjob_failures`; at the ceiling `args.getjob_failures` set `graceful_stop`
and break; otherwise wait 60 seconds in interruptible 1-second steps. -/
def retrieve_statuscode_failure (ceiling : Nat) (stop : Nat → Bool)
    (getjob_failures : Nat) : BackoffOutcome :=
  if getjob_failures + 1 ≥ ceiling then ⟨getjob_failures + 1, true, true, 0⟩
  else ⟨getjob_failures + 1, false, false, interruptible_wait stop 0 60⟩

/-- The step budget of the `wait_for_aborted_job_stageout` loop: one step
per 0.5-second sleep, i.e. `2 * max_wait_time` steps. -/
def stageout_budget (t : Option Int) : Nat := (2 * max_wait_time t).toNat

/-! ## Claim-side definitions and concrete fixtures -/

/-- Definition following the claim's words (C3): a raw command is accepted
iff its first space-separated token is in the allow-list, it contains no
`;` and no encoded `;` (`&#59`), and the verb is not `rm`. Stated as a
predicate on a string so it can be compared with `get_debug_command`. -/
def debug_command_claim_accepts (s : String) : Bool :=
  allowed_commands.contains (firstToken s) && !(pyContains s ";") &&
    !(pyContains s "&#59") && !(forbidden_commands.contains (firstToken s))

/-- A concrete job fixture used by the concrete-input theorems below. -/
def exampleJob : Job :=
  { state := "running", serverstate := "starting", piloterrorcode := 0,
    piloterrorcodes := [], piloterrordiags := [], is_analysis := false,
    completed := false, debug := false, debug_command := "", pid := 0,
    indata := [] }

/-- A concrete `send_state` environment fixture: a real job, existing work
directory, successful update whose response has no `command` key. -/
def exampleEnv : SendEnv :=
  { reached_maxtime := false, pandajob_real := true, workdir_exists := true,
    response := some none, write_ok := true }

/-- A concrete args fixture: server updates on, normal (non-stager)
workflow. -/
def exampleArgs : Args :=
  { update_server := true, pod := false, workflow := "generic",
    cleanup := true, abort_job := false }

/-! ## Helper lemmas on the loop embeddings -/

theorem order_log_transfer_loop_le (obs : Nat → LogObs) :
    ∀ fuel n, order_log_transfer_loop obs n fuel ≤ n + fuel := by
  intro fuel
  induction fuel with
  | zero => intro n; simp [order_log_transfer_loop]
  | succ f ih =>
    intro n
    simp only [order_log_transfer_loop]
    split
    · omega
    · have := ih (n + 1); omega

theorem order_log_transfer_loop_first (obs : Nat → LogObs) :
    ∀ fuel n k, n ≤ k → k < n + fuel →
      (∀ i, n ≤ i → i < k →
        ¬((obs i).data_out_empty = true ∧
          ((obs i).log_transfer = LOG_TRANSFER_DONE ∨
            (obs i).log_transfer = LOG_TRANSFER_FAILED))) →
      ((obs k).data_out_empty = true ∧
        ((obs k).log_transfer = LOG_TRANSFER_DONE ∨
          (obs k).log_transfer = LOG_TRANSFER_FAILED)) →
      order_log_transfer_loop obs n fuel = k := by
  intro fuel
  induction fuel with
  | zero => intro n k h1 h2 _ _; omega
  | succ f ih =>
    intro n k h1 h2 hbefore hk
    rcases Nat.eq_or_lt_of_le h1 with heq | hlt
    · subst heq
      simp only [order_log_transfer_loop]
      rw [if_pos hk]
    · have hn : ¬((obs n).data_out_empty = true ∧
          ((obs n).log_transfer = LOG_TRANSFER_DONE ∨
            (obs n).log_transfer = LOG_TRANSFER_FAILED)) :=
        hbefore n le_rfl hlt
      simp only [order_log_transfer_loop]
      rw [if_neg hn]
      exact ih (n + 1) k hlt (by omega) (fun i hi hik => hbefore i (by omega) hik) hk

theorem aborted_stageout_loop_le (found : Nat → Bool) :
    ∀ fuel k, aborted_stageout_loop found k fuel ≤ k + fuel := by
  intro fuel
  induction fuel with
  | zero => intro k; simp [aborted_stageout_loop]
  | succ f ih =>
    intro k
    simp only [aborted_stageout_loop]
    split
    · omega
    · have := ih (k + 1); omega

theorem aborted_stageout_loop_first (found : Nat → Bool) :
    ∀ fuel n k, n ≤ k → k < n + fuel →
      (∀ i, n ≤ i → i < k → found i = false) → found k = true →
      aborted_stageout_loop found n fuel = k := by
  intro fuel
  induction fuel with
  | zero => intro n k h1 h2 _ _; omega
  | succ f ih =>
    intro n k h1 h2 hbefore hk
    rcases Nat.eq_or_lt_of_le h1 with heq | hlt
    · subst heq
      simp only [aborted_stageout_loop]
      rw [if_pos hk]
    · have hn : found n = false := hbefore n le_rfl hlt
      simp only [aborted_stageout_loop]
      rw [if_neg (by simp [hn])]
      exact ih (n + 1) k hlt (by omega) (fun i hi hik => hbefore i (by omega) hik) hk

theorem interruptible_wait_le (stop : Nat → Bool) :
    ∀ fuel i, interruptible_wait stop i fuel ≤ fuel := by
  intro fuel
  induction fuel with
  | zero => intro i; simp [interruptible_wait]
  | succ f ih =>
    intro i
    simp only [interruptible_wait]
    split
    · omega
    · have := ih (i + 1); omega

theorem interruptible_wait_all_false (stop : Nat → Bool) :
    ∀ fuel i, (∀ d, d < fuel → stop (i + d) = false) →
      interruptible_wait stop i fuel = fuel := by
  intro fuel
  induction fuel with
  | zero => intro i _; simp [interruptible_wait]
  | succ f ih =>
    intro i h
    have h0 : stop i = false := by simpa using h 0 (by omega)
    simp only [interruptible_wait]
    rw [if_neg (by simp [h0])]
    have := ih (i + 1) (fun d hd => by
      have := h (d + 1) (by omega)
      simpa [Nat.add_assoc, Nat.add_comm, Nat.add_left_comm] using this)
    omega

theorem interruptible_wait_first (stop : Nat → Bool) :
    ∀ fuel i j, j < fuel → (∀ d, d < j → stop (i + d) = false) →
      stop (i + j) = true → interruptible_wait stop i fuel = j := by
  intro fuel
  induction fuel with
  | zero => intro i j hj _ _; omega
  | succ f ih =>
    intro i j hj hbefore hstop
    cases j with
    | zero =>
      simp only [interruptible_wait]
      rw [if_pos (by simpa using hstop)]
    | succ j' =>
      have h0 : stop i = false := by simpa using hbefore 0 (by omega)
      simp only [interruptible_wait]
      rw [if_neg (by simp [h0])]
      have hrec : interruptible_wait stop (i + 1) f = j' := by
        refine ih (i + 1) j' (by omega) (fun d hd => ?_) ?_
        · have := hbefore (d + 1) (by omega)
          simpa [Nat.add_assoc, Nat.add_comm, Nat.add_left_comm] using this
        · simpa [Nat.add_assoc, Nat.add_comm, Nat.add_left_comm] using hstop
      omega

/-! ## Claim theorems -/

/-- C1: the error-code block of `job_monitor` (job.py:2872–2880) sets
`job.completed` to true with no preceding successful final server update:
the assignment `jobs[i].completed = True` happens before the
`if not jobs[i].completed: send_state(..)` guard, so `send_state` is never
invoked from this block. Evaluated at a concrete job that was not yet
completed: the block leaves it completed and sends nothing, contradicting
the claimed invariant (which the code's own comment on line 2876 states). -/
theorem job_monitor_completed_without_update :
    exampleJob.completed = false ∧
    (job_monitor_error_step (fun _ => false) exampleEnv exampleArgs 1700 exampleJob).1.completed = true ∧
    (job_monitor_error_step (fun _ => false) exampleEnv exampleArgs 1700 exampleJob).2 = false := by
  refine ⟨rfl, rfl, rfl⟩

/-- C2 counterexample: the claim reads `get_proper_state` as a mapping in
which internal state `holding` yields `holding`, but when `job.serverstate`
is already `finished` the function returns `finished` regardless of the
internal state. -/
theorem get_proper_state_absorbing_counterexample :
    (get_proper_state { exampleJob with serverstate := "finished" } "holding").2 = "finished" ∧
    ("finished" : String) ≠ "holding" := by
  decide

/-- C2 (amended): when `job.serverstate` is already `finished` or `failed`
it is returned unchanged regardless of the internal state; otherwise the
claimed mapping holds: a fresh serverstate `""` with internal state neither
`finished` nor `failed` yields `starting`; internal state `finished`,
`failed` or `holding` yields itself; any other internal state yields
`running`; in particular `("", "running")` yields `starting` and
`("starting", "holding")` yields `holding`. -/
theorem get_proper_state_amended (job : Job) (state : String) :
    ((job.serverstate = "finished" ∨ job.serverstate = "failed") →
      (get_proper_state job state).2 = job.serverstate) ∧
    (¬(job.serverstate = "finished" ∨ job.serverstate = "failed") →
      ((job.serverstate = "" ∧ state ≠ "finished" ∧ state ≠ "failed") →
        (get_proper_state job state).2 = "starting") ∧
      (¬(job.serverstate = "" ∧ state ≠ "finished" ∧ state ≠ "failed") →
        ((state = "finished" ∨ state = "failed" ∨ state = "holding") →
          (get_proper_state job state).2 = state) ∧
        ((state ≠ "finished" ∧ state ≠ "failed" ∧ state ≠ "holding") →
          (get_proper_state job state).2 = "running"))) ∧
    (get_proper_state { exampleJob with serverstate := "" } "running").2 = "starting" ∧
    (get_proper_state { exampleJob with serverstate := "starting" } "holding").2 = "holding" := by
  refine ⟨?_, ?_, by decide, by decide⟩
  · intro h
    simp only [get_proper_state]
    rw [if_pos h]
  · intro h
    constructor
    · intro h2
      simp only [get_proper_state]
      rw [if_neg h, if_pos h2]
    · intro h2
      constructor
      · intro h3
        simp only [get_proper_state]
        rw [if_neg h, if_neg h2, if_pos h3]
      · rintro ⟨a, b, c⟩
        have h3 : ¬(state = "finished" ∨ state = "failed" ∨ state = "holding") := by
          tauto
        simp only [get_proper_state]
        rw [if_neg h, if_neg h2, if_neg h3]

/-- C2 witness: the amended theorem applied at concrete inputs — an
absorbing `failed` serverstate, and an in-flight `stagein` internal state
mapping to `running`. -/
theorem get_proper_state_amended_witness :
    (get_proper_state { exampleJob with serverstate := "failed" } "running").2 = "failed" ∧
    (get_proper_state { exampleJob with serverstate := "starting" } "stagein").2 = "running" := by
  constructor
  · exact (get_proper_state_amended { exampleJob with serverstate := "failed" } "running").1 (by decide)
  · exact ((((get_proper_state_amended { exampleJob with serverstate := "starting" } "stagein").2.1 (by decide)).2 (by decide)).2 (by decide))

/-- C3 counterexample: the claim demands acceptance exactly when the first
space-separated token of the RAW string is allow-listed, but
`get_debug_command` first strips the redundant `debug,` token, so
`"debug,tail x.log"` — whose raw first token `debug,tail` is not in the
allow-list — is nevertheless accepted (with the stripped command). -/
theorem get_debug_command_raw_iff_counterexample :
    get_debug_command "debug,tail x.log" = (true, "tail x.log") ∧
    firstToken "debug,tail x.log" = "debug,tail" ∧
    allowed_commands.contains "debug,tail" = false := by
  decide

/-- C3 (amended): after first removing the redundant `debug,`/`,debug`
tokens (only when the raw string contains both a comma and `debug`), the
command is accepted — returning debug mode on together with the resulting
command — if and only if the resulting string's first space-separated token
is in the allow-list `tail, ls, ps, gdb, du`, the resulting string contains
no `;` and no encoded `;` (`&#59`), and the verb is not `rm`; otherwise
debug mode is off and the command empty. The claim's concrete examples
(`tail x.log` accepted; `rm -rf /`, `ls; rm -rf /`, `foo bar` rejected) all
hold. -/
theorem get_debug_command_amended (cmd : String) :
    get_debug_command cmd =
      (if debug_command_claim_accepts (strip_redundant_debug cmd) = true then
        (true, strip_redundant_debug cmd)
      else (false, "")) ∧
    get_debug_command "tail x.log" = (true, "tail x.log") ∧
    get_debug_command "rm -rf /" = (false, "") ∧
    get_debug_command "ls; rm -rf /" = (false, "") ∧
    get_debug_command "foo bar" = (false, "") := by
  refine ⟨?_, by decide, by decide, by decide, by decide⟩
  have h : ∀ s : String,
      (if !(allowed_commands.contains (firstToken s)) then ((false : Bool), ("" : String))
       else if pyContains s ";" || pyContains s "&#59" then (false, "")
       else if forbidden_commands.contains (firstToken s) then (false, "")
       else (true, s)) =
      (if debug_command_claim_accepts s = true then (true, s) else (false, "")) := by
    intro s
    unfold debug_command_claim_accepts
    cases h1 : allowed_commands.contains (firstToken s) <;>
      cases h2 : pyContains s ";" <;>
        cases h3 : pyContains s "&#59" <;>
          cases h4 : forbidden_commands.contains (firstToken s) <;>
            simp [h1, h2, h3, h4]
  simpa only [get_debug_command] using h (strip_redundant_debug cmd)

/-- C4: on a dispatcher response whose command contains `tobekilled`, when
the job's working directory still exists `handle_backchannel_command` sets
the job state to `failed` (`finished` in the stager workflow), attaches the
PANDAKILL error code in the non-stager case, reports the payload kill
exactly when `job.pid` is set, and sets the `abort_job` flag; when the
working directory no longer exists the instruction is ignored and nothing
changes. -/
theorem handle_backchannel_tobekilled_spec (workflow : String)
    (workdir_exists : Bool) (cmd : String) (job : Job)
    (hnull : cmd ≠ "NULL") (hkill : pyContains cmd "tobekilled" = true) :
    (workdir_exists = false →
      handle_backchannel_command workflow workdir_exists (some cmd) job =
        ⟨job, false, false, false⟩) ∧
    (workdir_exists = true →
      (handle_backchannel_command workflow workdir_exists (some cmd) job).abort_job_set = true ∧
      ((handle_backchannel_command workflow workdir_exists (some cmd) job).killed_payload = true ↔
        job.pid ≠ 0) ∧
      (workflow = "stager" →
        (handle_backchannel_command workflow workdir_exists (some cmd) job).job.state = "finished" ∧
        (handle_backchannel_command workflow workdir_exists (some cmd) job).job.piloterrorcodes =
          job.piloterrorcodes) ∧
      (workflow ≠ "stager" →
        (handle_backchannel_command workflow workdir_exists (some cmd) job).job.state = "failed" ∧
        (handle_backchannel_command workflow workdir_exists (some cmd) job).job.piloterrorcodes =
          job.piloterrorcodes ++ [PANDAKILL])) := by
  have hb : (pyContains cmd " " && !(pyContains cmd "tobekilled")) = false := by
    rw [hkill]; simp
  simp only [handle_backchannel_command]
  rw [if_neg hnull, if_neg (by simp [hb]), if_pos hkill]
  constructor
  · intro h
    subst h
    simp
  · intro h
    subst h
    simp only [Bool.not_true, if_neg]
    by_cases hw : workflow = "stager"
    · simp [hw, set_pilot_state, add_error_code]
    · simp [hw, set_pilot_state, add_error_code]

/-- C4 witness: a normal-workflow job with a live payload process receiving
`tobekilled` with an existing work directory: state becomes `failed`, the
payload is killed, and `abort_job` is set. -/
theorem handle_backchannel_tobekilled_witness :
    (handle_backchannel_command "generic" true (some "tobekilled")
      { exampleJob with pid := 88 }).abort_job_set = true ∧
    (handle_backchannel_command "generic" true (some "tobekilled")
      { exampleJob with pid := 88 }).killed_payload = true ∧
    (handle_backchannel_command "generic" true (some "tobekilled")
      { exampleJob with pid := 88 }).job.state = "failed" := by
  have h := handle_backchannel_tobekilled_spec "generic" true "tobekilled"
    { exampleJob with pid := 88 } (by decide) (by decide)
  refine ⟨(h.2 rfl).1, ?_, ((h.2 rfl).2.2.2 (by decide)).1⟩
  exact ((h.2 rfl).2.1).mpr (by decide)

/-- C5: with `c` the effective error code after the first fix-up step (the
list's first entry when `piloterrorcode` is 0 and the list is non-empty,
the existing `piloterrorcode` otherwise), `verify_error_code` negates the
code's sign (making it negative) and forces the state to `failed` for
analysis jobs whose non-zero code the classifier deems recoverable, and
changes neither the state nor the code any further for non-analysis jobs or
non-recoverable codes. -/
theorem verify_error_code_spec (rec : Int → Bool) (job : Job) (c : Int)
    (hc : c = if job.piloterrorcode = 0 ∧ job.piloterrorcodes ≠ [] then
      job.piloterrorcodes.headD 0 else job.piloterrorcode) :
    ((job.is_analysis = true ∧ c ≠ 0 ∧ rec c = true) →
      (verify_error_code rec job).piloterrorcode = -(c.natAbs : Int) ∧
      (verify_error_code rec job).piloterrorcode < 0 ∧
      (verify_error_code rec job).state = "failed") ∧
    ((job.is_analysis = false ∨ c = 0 ∨ rec c = false) →
      (verify_error_code rec job).piloterrorcode = c ∧
      (verify_error_code rec job).state = job.state) := by
  set j1 : Job := if job.piloterrorcode = 0 ∧ job.piloterrorcodes.length > 0 then
    { job with piloterrorcode := job.piloterrorcodes.headD 0 } else job with hj1
  have key : verify_error_code rec job =
      (if j1.piloterrorcode ≠ 0 ∧ j1.is_analysis then
        (if rec j1.piloterrorcode then
          { j1 with piloterrorcode := -(j1.piloterrorcode.natAbs : Int),
                    state := "failed" }
        else j1)
      else j1) := rfl
  have hcj : c = j1.piloterrorcode := by
    rw [hc, hj1]
    by_cases h0 : job.piloterrorcode = 0 ∧ job.piloterrorcodes ≠ []
    · rw [if_pos h0, if_pos ⟨h0.1, List.length_pos_iff_ne_nil.mpr h0.2⟩]
    · have h0' : ¬(job.piloterrorcode = 0 ∧ job.piloterrorcodes.length > 0) := by
        intro hx
        exact h0 ⟨hx.1, List.length_pos_iff_ne_nil.mp hx.2⟩
      rw [if_neg h0, if_neg h0']
  have hstate : j1.state = job.state := by
    rw [hj1]; split <;> rfl
  have hana : j1.is_analysis = job.is_analysis := by
    rw [hj1]; split <;> rfl
  constructor
  · rintro ⟨ha, hne, hrec⟩
    rw [key, if_pos ⟨by rw [← hcj]; exact hne, by rw [hana]; exact ha⟩,
      if_pos (by rw [← hcj]; exact hrec)]
    refine ⟨by rw [← hcj], ?_, rfl⟩
    show -(j1.piloterrorcode.natAbs : Int) < 0
    rw [← hcj]
    have hpos : 0 < (c.natAbs : Int) := by exact_mod_cast Int.natAbs_pos.mpr hne
    omega
  · intro hcase
    rcases hcase with ha | hz | hrec
    · rw [key, if_neg (by rw [hana]; simp [ha])]
      exact ⟨hcj.symm, hstate⟩
    · rw [key, if_neg (by rw [← hcj]; simp [hz])]
      exact ⟨hcj.symm, hstate⟩
    · by_cases hne : j1.piloterrorcode = 0
      · rw [key, if_neg (by simp [hne])]
        exact ⟨hcj.symm, hstate⟩
      · by_cases ha2 : j1.is_analysis = true
        · rw [key, if_pos ⟨hne, ha2⟩, if_neg (by rw [← hcj, hrec]; simp)]
          exact ⟨hcj.symm, hstate⟩
        · rw [key, if_neg (by simp [ha2])]
          exact ⟨hcj.symm, hstate⟩

/-- C5 witness: an analysis job with `piloterrorcode = 0` and error list
`[1305]`, all codes classified recoverable: the stored code becomes `-1305`
and the state `failed`. -/
theorem verify_error_code_spec_witness :
    (verify_error_code (fun _ => true)
      { exampleJob with piloterrorcode := 0, piloterrorcodes := [1305],
                        is_analysis := true }).piloterrorcode = -1305 ∧
    (verify_error_code (fun _ => true)
      { exampleJob with piloterrorcode := 0, piloterrorcodes := [1305],
                        is_analysis := true }).state = "failed" := by
  have h := (verify_error_code_spec (fun _ => true)
    { exampleJob with piloterrorcode := 0, piloterrorcodes := [1305],
                      is_analysis := true } 1305 (by decide)).1
    ⟨rfl, by decide, rfl⟩
  exact ⟨by rw [h.1]; decide, h.2.2⟩

/-- C6 counterexample: the claim says the loop exits the instant the
transfer status is observed done or failed, but the exit condition also
requires the `data_out` queue to be empty: with the status permanently
`DONE` but the queue never empty, all 60 iterations run instead of 0. -/
theorem order_log_transfer_wait_counterexample :
    ((fun _ : Nat => (⟨false, LOG_TRANSFER_DONE⟩ : LogObs)) 0).log_transfer = LOG_TRANSFER_DONE ∧
    order_log_transfer_sleeps (fun _ => ⟨false, LOG_TRANSFER_DONE⟩) = 60 ∧
    (60 : Nat) ≠ 0 := by
  refine ⟨rfl, ?_, by decide⟩
  decide

/-- C6 (amended): the log-transfer wait loop of `order_log_transfer`
executes at most 60 iterations of one 2-second sleep each (so at most 120 s)
even if the observations never change, and it exits at the first iteration
that observes the transfer status done or failed AND the `data_out` queue
empty. -/
theorem order_log_transfer_wait_spec (obs : Nat → LogObs) (k : Nat)
    (hk : k < 60)
    (hbefore : ∀ i, i < k →
      ¬((obs i).data_out_empty = true ∧
        ((obs i).log_transfer = LOG_TRANSFER_DONE ∨
          (obs i).log_transfer = LOG_TRANSFER_FAILED)))
    (hcond : (obs k).data_out_empty = true ∧
      ((obs k).log_transfer = LOG_TRANSFER_DONE ∨
        (obs k).log_transfer = LOG_TRANSFER_FAILED)) :
    order_log_transfer_sleeps obs = k ∧
    ∀ f : Nat → LogObs, order_log_transfer_sleeps f ≤ 60 := by
  constructor
  · exact order_log_transfer_loop_first obs 60 0 k (by omega) (by omega)
      (fun i _ hik => hbefore i hik) hcond
  · intro f
    simpa using order_log_transfer_loop_le f 60 0

/-- C6 witness: the queue is always empty and the transfer completes at
iteration 2: the loop performs exactly 2 sleeps. -/
theorem order_log_transfer_wait_spec_witness :
    order_log_transfer_sleeps
      (fun n => ⟨true, if n = 2 then LOG_TRANSFER_DONE else LOG_TRANSFER_NOT_DONE⟩) = 2 := by
  exact (order_log_transfer_wait_spec
    (fun n => ⟨true, if n = 2 then LOG_TRANSFER_DONE else LOG_TRANSFER_NOT_DONE⟩) 2
    (by decide) (by decide) (by decide)).1

/-- C7: in `wait_for_aborted_job_stageout` the wait is bounded by
`max_wait_time = 120 − time_since_kill − 5` with `time_since_kill` clamped
to 60 when negative, above 60, or undeterminable, so the bound never
exceeds 115 s; the loop never runs past its step budget and exits at the
first step that observes the job in `finished_data_out` or
`failed_data_out`. -/
theorem wait_for_aborted_job_stageout_spec (t : Option Int) (found : Nat → Bool)
    (k : Nat) (hbefore : ∀ i, i < k → found i = false) (hk : found k = true)
    (hlt : k < stageout_budget t) :
    max_wait_time t = 2 * 60 - clamp_time_since_kill t - 5 ∧
    max_wait_time t ≤ 115 ∧
    clamp_time_since_kill none = 60 ∧
    (∀ v : Int, v < 0 ∨ v > 60 → clamp_time_since_kill (some v) = 60) ∧
    aborted_stageout_steps found (stageout_budget t) = k ∧
    (∀ g b, aborted_stageout_steps g b ≤ b) := by
  refine ⟨rfl, ?_, rfl, ?_, ?_, ?_⟩
  · cases t with
    | none => decide
    | some v =>
      simp only [max_wait_time, clamp_time_since_kill]
      split
      · omega
      · rename_i h
        push_neg at h
        omega
  · intro v hv
    simp only [clamp_time_since_kill]
    rw [if_pos (Or.symm hv)]
  · exact aborted_stageout_loop_first found (stageout_budget t) 0 k (by omega)
      (by omega) (fun i _ hik => hbefore i hik) hk
  · intro g b
    simpa using aborted_stageout_loop_le g b 0

/-- C7 witness: 30 s since the kill signal (`max_wait_time = 85 ≤ 115`),
the stage-out observed finished at step 2: the loop exits at step 2. -/
theorem wait_for_aborted_job_stageout_spec_witness :
    max_wait_time (some 30) ≤ 115 ∧
    aborted_stageout_steps (fun n => n == 2) (stageout_budget (some 30)) = 2 := by
  have h := wait_for_aborted_job_stageout_spec (some 30) (fun n => n == 2) 2
    (by decide) (by decide) (by decide)
  exact ⟨h.2.1, h.2.2.2.2.1⟩

/-- C8: after a `getJob` response with a non-zero `StatusCode` the failure
counter is incremented; when the incremented counter has reached the
configured ceiling, `graceful_stop` is set and the acquisition loop breaks;
otherwise the stage performs a 60-second wait in 1-second increments with
`graceful_stop` checked before each second — all 60 sleeps happen when the
flag is never set, and exactly `j` sleeps happen when the flag is first
observed set at check `j`. -/
theorem retrieve_statuscode_failure_spec (ceiling : Nat) (stop : Nat → Bool)
    (failures : Nat) :
    (retrieve_statuscode_failure ceiling stop failures).getjob_failures = failures + 1 ∧
    (failures + 1 ≥ ceiling →
      (retrieve_statuscode_failure ceiling stop failures).graceful_stop_set = true ∧
      (retrieve_statuscode_failure ceiling stop failures).loop_break = true) ∧
    (failures + 1 < ceiling →
      (retrieve_statuscode_failure ceiling stop failures).graceful_stop_set = false ∧
      (retrieve_statuscode_failure ceiling stop failures).loop_break = false ∧
      (retrieve_statuscode_failure ceiling stop failures).sleeps ≤ 60 ∧
      ((∀ i, i < 60 → stop i = false) →
        (retrieve_statuscode_failure ceiling stop failures).sleeps = 60) ∧
      (∀ j, j < 60 → (∀ i, i < j → stop i = false) → stop j = true →
        (retrieve_statuscode_failure ceiling stop failures).sleeps = j)) := by
  refine ⟨?_, ?_, ?_⟩
  · unfold retrieve_statuscode_failure
    split <;> rfl
  · intro h
    unfold retrieve_statuscode_failure
    rw [if_pos h]
    exact ⟨rfl, rfl⟩
  · intro h
    unfold retrieve_statuscode_failure
    rw [if_neg (by omega)]
    refine ⟨rfl, rfl, ?_, ?_, ?_⟩
    · exact interruptible_wait_le stop 60 0
    · intro hall
      exact interruptible_wait_all_false stop 60 0 (fun d hd => by simpa using hall d hd)
    · intro j hj hbef hstop
      exact interruptible_wait_first stop 60 0 j hj
        (fun d hd => by simpa using hbef d hd) (by simpa using hstop)

/-- C8 witness: below the ceiling (3 < 10) the counter increments and the
wait is interrupted at check 7 after 7 sleeps; at the ceiling (3 ≥ 3)
`graceful_stop` is set and the loop breaks. -/
theorem retrieve_statuscode_failure_spec_witness :
    (retrieve_statuscode_failure 10 (fun i => i == 7) 2).getjob_failures = 3 ∧
    (retrieve_statuscode_failure 10 (fun i => i == 7) 2).graceful_stop_set = false ∧
    (retrieve_statuscode_failure 10 (fun i => i == 7) 2).sleeps = 7 ∧
    (retrieve_statuscode_failure 3 (fun _ => false) 2).graceful_stop_set = true ∧
    (retrieve_statuscode_failure 3 (fun _ => false) 2).loop_break = true := by
  have h1 := retrieve_statuscode_failure_spec 10 (fun i => i == 7) 2
  have h2 := retrieve_statuscode_failure_spec 3 (fun _ => false) 2
  refine ⟨h1.1, (h1.2.2 (by decide)).1, ?_, (h2.2.1 (by decide)).1, (h2.2.1 (by decide)).2⟩
  exact (h1.2.2 (by decide)).2.2.2.2 7 (by decide) (by decide) (by decide)

/-- C9: `create_data_payload` routes a job with input data to `data_in`
(setting its internal state to `stagein`) and never to `finished_data_in`;
a job without input data to `finished_data_in` and never to `data_in`; and
in both cases additionally to `payloads` whenever the workflow is not
`stager`. -/
theorem create_data_payload_route_spec (args : Args) (job : Job) :
    (job.indata ≠ [] →
      (create_data_payload_route args job).job.state = "stagein" ∧
      (create_data_payload_route args job).to_data_in = true ∧
      (create_data_payload_route args job).to_finished_data_in = false) ∧
    (job.indata = [] →
      (create_data_payload_route args job).to_finished_data_in = true ∧
      (create_data_payload_route args job).to_data_in = false) ∧
    (args.workflow ≠ "stager" → (create_data_payload_route args job).to_payloads = true) := by
  unfold create_data_payload_route
  by_cases h : job.indata = []
  · by_cases hp : args.pod ∧ args.workflow = "stager" <;>
      simp [h, hp, set_pilot_state]
  · by_cases hw : args.workflow = "stager" <;>
      simp [h, hw, set_pilot_state]

/-- C9 witness: with the default (non-stager) args, a job with
`indata = ["f1"]` goes to `data_in` in state `stagein`, and a job with
empty `indata` goes to `finished_data_in` and `payloads` but not
`data_in`. -/
theorem create_data_payload_route_spec_witness :
    (create_data_payload_route exampleArgs { exampleJob with indata := ["f1"] }).job.state = "stagein" ∧
    (create_data_payload_route exampleArgs { exampleJob with indata := ["f1"] }).to_data_in = true ∧
    (create_data_payload_route exampleArgs exampleJob).to_finished_data_in = true ∧
    (create_data_payload_route exampleArgs exampleJob).to_data_in = false ∧
    (create_data_payload_route exampleArgs exampleJob).to_payloads = true := by
  have h1 := create_data_payload_route_spec exampleArgs { exampleJob with indata := ["f1"] }
  have h2 := create_data_payload_route_spec exampleArgs exampleJob
  refine ⟨(h1.1 (by decide)).1, (h1.1 (by decide)).2.1, (h2.2.1 rfl).1, (h2.2.1 rfl).2,
    h2.2.2 (by decide)⟩

/-- C10: calling `update_server` on a job whose `completed` flag is already
true is a no-op: it returns before invoking `send_state`, leaving the job
(including its server-visible state) and the args unchanged. -/
theorem update_server_completed_noop (rec : Int → Bool) (env : SendEnv)
    (args : Args) (job : Job) (h : job.completed = true) :
    update_server rec env args job = ⟨job, args, false⟩ := by
  unfold update_server
  rw [if_pos h]

/-- C10 witness: the no-op theorem applied to a concrete completed job. -/
theorem update_server_completed_noop_witness :
    update_server (fun _ => false) exampleEnv exampleArgs
      { exampleJob with completed := true } =
      ⟨{ exampleJob with completed := true }, exampleArgs, false⟩ :=
  update_server_completed_noop (fun _ => false) exampleEnv exampleArgs
    { exampleJob with completed := true } rfl

end PilotJob
